import Mathlib

/-!
A shallow embedding of `build_gallery.py`, a static media-gallery generator:
pure-string Python helpers (`pathlib` stem/suffix extraction, `str.lower`,
`html.escape`), the extension classifier, the gallery data builder over an
explicit filesystem tree, the HTML renderer, and `shorten_name`, together
with theorems about the behaviour its specification describes.

Modelling conventions:
* Python strings are Lean `String`s; both count code points, so `len`,
  slicing and per-character maps agree.
* `str.lower` is modelled with `Char.toLower`, the ASCII case map (the
  extension sets and all names the spec reasons about are ASCII).
* The filesystem is an explicit tree (`FSNode`); `Path.iterdir` order is the
  order of the `children` list, and Python's stable `sorted` is
  `List.insertionSort` (stable, inserts after equal keys) with the same key.
* Exceptions are an `Except FSError` result: `FileNotFoundError` raised by
  the missing-media-root check, `NotADirectoryError` raised by `iterdir` on
  a non-directory.
-/

namespace Gallery

/-- Python slicing `s[:n]` (code-point granularity). -/
def strTake (s : String) (n : Nat) : String :=
  String.mk (s.toList.take n)

/-- Python slicing `s[n:]` (code-point granularity). -/
def strDrop (s : String) (n : Nat) : String :=
  String.mk (s.toList.drop n)

/-- Python `str.lower()` on the ASCII letters (see the header note). -/
def pyLower (s : String) : String :=
  String.mk (s.toList.map Char.toLower)

/-- Python `str.lstrip(".")`: drop every leading dot. -/
def pyLstripDots (s : String) : String :=
  String.mk (s.toList.dropWhile (fun c => c == '.'))

/-- Index of the last occurrence of `c` (Python `str.rfind`, `none` for -1). -/
def pyRfind (c : Char) : List Char → Option Nat
  | [] => none
  | x :: xs =>
    match pyRfind c xs with
    | some i => some (i + 1)
    | none => if x == c then some 0 else none

/-- Split a character list at every occurrence of `sep` (Python
`str.split(sep)` for a one-character separator). -/
def splitOnChar (sep : Char) : List Char → List (List Char)
  | [] => [[]]
  | c :: rest =>
    match splitOnChar sep rest with
    | [] => if c == sep then [[], []] else [[c]]
    | h :: t => if c == sep then [] :: h :: t else (c :: h) :: t

/-- `PurePosixPath(s).name`: the final path component (empty segments and
lone-dot segments are dropped by `pathlib`'s parser). -/
def pyPathName (s : String) : String :=
  String.mk
    ((((splitOnChar '/' s.toList).filter
        (fun comp => comp != [] && comp != ['.'])).getLast?).getD [])

/-- `PurePosixPath(s).suffix`: the part of the name from its last dot, when
that dot is neither the first nor the last character of the name. -/
def pySuffix (s : String) : String :=
  let nm := pyPathName s
  match pyRfind '.' nm.toList with
  | some i => if 0 < i ∧ i < nm.length - 1 then strDrop nm i else ""
  | none => ""

/-- `PurePosixPath(s).stem`: the name without its suffix. -/
def pyStem (s : String) : String :=
  let nm := pyPathName s
  match pyRfind '.' nm.toList with
  | some i => if 0 < i ∧ i < nm.length - 1 then strTake nm i else nm
  | none => nm

/-- `IMAGE_EXTS` (a Python set of lowercase, dot-free extensions). -/
def IMAGE_EXTS : List String :=
  ["jpg", "jpeg", "png", "gif", "webp", "avif", "bmp", "svg"]

/-- `VIDEO_EXTS`. -/
def VIDEO_EXTS : List String :=
  ["mp4", "webm", "ogv", "mov", "m4v"]

/-- `ALL_EXTS = IMAGE_EXTS | VIDEO_EXTS` (membership model of the union). -/
def ALL_EXTS : List String := IMAGE_EXTS ++ VIDEO_EXTS

/-- `p.suffix.lower().lstrip(".")`, the key every classifier looks up. -/
def extKey (p : String) : String := pyLstripDots (pyLower (pySuffix p))

/-- `is_image(p)`. -/
def is_image (p : String) : Bool := IMAGE_EXTS.contains (extKey p)

/-- `is_video(p)`. -/
def is_video (p : String) : Bool := VIDEO_EXTS.contains (extKey p)

/-- A filesystem entry: a regular file or a directory with its `iterdir`
listing. -/
inductive FSNode where
  | file (name : String)
  | dir (name : String) (children : List FSNode)

/-- `p.name`. -/
def FSNode.name : FSNode → String
  | .file n => n
  | .dir n _ => n

/-- `p.is_file()`. -/
def FSNode.isFile : FSNode → Bool
  | .file _ => true
  | .dir _ _ => false

/-- `p.is_dir()`. -/
def FSNode.isDir : FSNode → Bool
  | .file _ => false
  | .dir _ _ => true

/-- `is_media_file(p)`. -/
def is_media_file (p : FSNode) : Bool :=
  p.isFile && ALL_EXTS.contains (extKey p.name)

/-- Code-point lexicographic `<=` on character lists: how Python compares the
sort keys (strings). -/
def charListLeb : List Char → List Char → Bool
  | [], _ => true
  | _ :: _, [] => false
  | a :: as, b :: bs =>
    if a.toNat < b.toNat then true
    else if b.toNat < a.toNat then false
    else charListLeb as bs

/-- Code-point lexicographic `<=` on strings. -/
def strLeb (a b : String) : Bool := charListLeb a.toList b.toList

/-- The sort relation of `sorted(..., key=lambda p: p.name.lower())`. -/
def nodeLe (a b : FSNode) : Prop := strLeb (pyLower a.name) (pyLower b.name) = true

instance : DecidableRel nodeLe := fun a b =>
  inferInstanceAs (Decidable (strLeb (pyLower a.name) (pyLower b.name) = true))

/-- `sorted(nodes, key=lambda p: p.name.lower())`; `insertionSort` is stable,
like Python's sort. -/
def pySortByLowerName (l : List FSNode) : List FSNode :=
  List.insertionSort nodeLe l

/-- One gallery item: `{"url": ..., "name": ..., "kind": ...}`. -/
structure Item where
  url : String
  name : String
  kind : String
  deriving DecidableEq

/-- One tab: `{"name": ..., "slug": ..., "items": [...]}`. -/
structure Tab where
  name : String
  slug : String
  items : List Item
  deriving DecidableEq

/-- The exceptions the builder can raise. -/
inductive FSError where
  | fileNotFound
  | notADirectory
  deriving DecidableEq

/-- `rel_url`: the file's path relative to `ROOT_DIR`, with `/` separators.
`media_root` sits directly under `ROOT_DIR`, so the relative path is
`media_root.name / sub.name / file.name`. -/
def rel_url (mediaName subName fileName : String) : String :=
  mediaName ++ "/" ++ subName ++ "/" ++ fileName

/-- The item record appended for one qualifying file `f`. -/
def itemOfFile (mediaName subName : String) (f : FSNode) : Item :=
  { url := rel_url mediaName subName f.name
    name := f.name
    kind :=
      if is_image f.name then "image"
      else if is_video f.name then "video" else "other" }

/-- One iteration of the builder's loop over `sorted(media_root.iterdir())`:
non-directories are skipped, a directory with no qualifying media files is
skipped, any other directory becomes a tab. -/
def tabOfSub (mediaName : String) : FSNode → Option Tab
  | .file _ => none
  | .dir subName subChildren =>
    let files := (pySortByLowerName subChildren).filter is_media_file
    if files.isEmpty then none
    else some
      { name := subName
        slug := subName
        items := files.map (itemOfFile mediaName subName) }

/-- `build_gallery_data(media_root)`. `none` models a path that does not
exist (so `media_root.exists()` is false and `FileNotFoundError` is raised);
a `file` node exists, passes the check, and then `iterdir()` raises
`NotADirectoryError`. -/
def build_gallery_data : Option FSNode → Except FSError (List Tab)
  | none => .error .fileNotFound
  | some (.file _) => .error .notADirectory
  | some (.dir mediaName children) =>
    .ok ((pySortByLowerName children).filterMap (tabOfSub mediaName))

/-- `shorten_name(name, max_len=22)`. -/
def shorten_name (name : String) (max_len : Nat := 22) : String :=
  let base := name
  if base.length ≤ max_len then base
  else
    let stem := pyStem base
    let ext := pySuffix base
    let ext := if 6 < ext.length then strTake ext 6 ++ "…" else ext
    let keep := max_len - ext.length - 1
    let keep := if keep < 3 then 3 else keep
    strTake stem keep ++ "…" ++ ext

/-- The extension exactly as `shorten_name`'s long branch re-assembles it:
truncated to its first 6 characters plus an ellipsis when longer than 6. -/
def truncExt (name : String) : String :=
  let ext := pySuffix name
  if 6 < ext.length then strTake ext 6 ++ "…" else ext

/-- `html.escape(s, quote=True)` acts independently on each character (its
sequential `str.replace` calls, ampersand first, never rewrite text an
earlier replace introduced). -/
def escapeChar (c : Char) : String :=
  if c = '&' then "&amp;"
  else if c = '<' then "&lt;"
  else if c = '>' then "&gt;"
  else if c = '"' then "&quot;"
  else if c = '\'' then "&#x27;"
  else String.singleton c

/-- `html.escape(s, quote=True)`. -/
def escape (s : String) : String :=
  String.join (s.toList.map escapeChar)

/-- Literal text of the `html_doc` template. -/
def docPart1 : String :=
  "<!doctype html>
<html lang=\"ja\">
<head>
  <meta charset=\"utf-8\" />
  <meta name=\"viewport\" content=\"width=device-width, initial-scale=1\" />
  <title>Local Media Gallery</title>
  <style>
    :root \x7b
      --bg: #0b0c10;
      --panel: #111217;
      --text: #e6e6e6;
      --muted: #a0a0a0;
      --accent: #4f46e5;
      --accent-2: #22d3ee;
      --border: #23242c;
      --tile: #151722;
      --shadow: 0 6px 24px rgba(0,0,0,.35);
    \x7d
    * \x7b box-sizing: border-box; \x7d
    html, body \x7b height: 100%; \x7d
    body \x7b
      margin: 0; padding: 0;
      background: linear-gradient(180deg, #0b0c10 0%, #0e1018 100%);
      color: var(--text);
      font-family: system-ui, -apple-system, Segoe UI, Roboto, Helvetica, Arial, \"Apple Color Emoji\", \"Segoe UI Emoji\";
    \x7d
    header \x7b position: sticky; top: 0; z-index: 20; backdrop-filter: blur(8px); background: rgba(11,12,16,.6); border-bottom: 1px solid var(--border); \x7d
    .container \x7b max-width: 1200px; margin: 0 auto; padding: 12px 16px; \x7d

    .title \x7b display: flex; align-items: center; gap: 10px; padding: 8px 0 12px; \x7d
    .title h1 \x7b font-size: 20px; margin: 0; letter-spacing: .2px; \x7d
    .badge \x7b font-size: 12px; padding: 2px 8px; background: #0f172a; border: 1px solid var(--border); border-radius: 999px; color: var(--muted); \x7d

    .tabs \x7b display: flex; gap: 8px; flex-wrap: wrap; padding-bottom: 10px; \x7d
    .tab-btn \x7b
      border: 1px solid var(--border);
      background: linear-gradient(180deg, #151823, #121521);
      color: var(--text);
      padding: 8px 10px; border-radius: 10px;
      cursor: pointer; box-shadow: var(--shadow);
      display: inline-flex; align-items: center; gap: 8px;
      transition: transform .08s ease, border-color .15s ease, box-shadow .15s ease;
    \x7d
    .tab-btn:hover \x7b transform: translateY(-1px); border-color: #2a2d3a; \x7d
    .tab-btn.active \x7b outline: 2px solid var(--accent); \x7d
    .tab-name \x7b font-weight: 600; \x7d
    .tab-count \x7b font-size: 12px; color: var(--muted); background: #0b0d14; border: 1px solid var(--border); padding: 2px 6px; border-radius: 999px; \x7d

    main \x7b max-width: 1200px; margin: 0 auto; padding: 16px; \x7d
    .panel \x7b display: none; \x7d
    .panel.active \x7b display: block; \x7d

    .grid \x7b list-style: none; margin: 0; padding: 0; display: grid; grid-template-columns: repeat(auto-fill, minmax(180px, 1fr)); gap: 14px; \x7d
    .tile \x7b
      position: relative; background: var(--tile); border: 1px solid var(--border);
      border-radius: 16px; overflow: hidden; aspect-ratio: 1 / 1; box-shadow: var(--shadow);
      cursor: pointer; display: flex; align-items: center; justify-content: center;
      transition: transform .08s ease, border-color .15s ease, box-shadow .15s ease;
    \x7d
    .tile:hover \x7b transform: translateY(-2px); border-color: #2a2d3a; \x7d
    .tile img \x7b width: 100%; height: 100%; object-fit: cover; display: block; \x7d

    /* 動画タイル */
    .video .video-thumb \x7b
      width: 100%; height: 100%; display: grid; place-items: center;
      background: radial-gradient(60% 60% at 50% 50%, rgba(34,211,238,.08) 0%, rgba(79,70,229,.08) 100%), #0d101a;
    \x7d
    .video .filename \x7b position: absolute; left: 8px; bottom: 8px; font-size: 12px; color: var(--muted); background: rgba(0,0,0,.45); padding: 2px 6px; border-radius: 6px; border: 1px solid rgba(255,255,255,.1); \x7d
    .play-icon \x7b
      width: 54px; height: 54px; border-radius: 999px; border: 2px solid rgba(255,255,255,.7);
      display: grid; place-items: center; box-shadow: 0 0 0 6px rgba(255,255,255,.08);
    \x7d
    .play-icon::before \x7b
      content: \"\"; display: block; width: 0; height: 0;
      border-left: 16px solid rgba(255,255,255,.9);
      border-top: 10px solid transparent; border-bottom: 10px solid transparent;
      margin-left: 4px;
    \x7d

    /* ビューア（モーダル） */
    .viewer \x7b
      position: fixed; inset: 0; background: rgba(3,6,12,.9);
      display: none; align-items: center; justify-content: center; padding: 24px; z-index: 50;
    \x7d
    .viewer.active \x7b display: flex; \x7d
    .viewer .inner \x7b position: relative; max-width: 96vw; max-height: 90vh; width: min(1200px, 96vw); \x7d
    .viewer .frame \x7b background: #000; border-radius: 16px; overflow: hidden; border: 1px solid var(--border); box-shadow: var(--shadow); \x7d
    .viewer img, .viewer video \x7b display: block; max-width: 100%; max-height: 80vh; margin: 0 auto; \x7d
    .viewer .close \x7b position: absolute; top: -12px; right: -12px; background: #0f172a; color: #fff; border: 1px solid var(--border); border-radius: 999px; width: 36px; height: 36px; display: grid; place-items: center; cursor: pointer; box-shadow: var(--shadow); \x7d
    .viewer .meta \x7b margin-top: 10px; text-align: center; color: var(--muted); font-size: 13px; \x7d

    footer \x7b max-width: 1200px; margin: 32px auto 48px; padding: 0 16px; color: var(--muted); font-size: 12px; text-align: center; \x7d
    a, a:visited \x7b color: var(--accent-2); \x7d
  </style>
</head>
<body>
  <header>
    <div class=\"container\">
      <div class=\"title\">
        <h1>Local Media Gallery</h1>
        <span class=\"badge\">static / generated</span>
      </div>
      <nav class=\"tabs\" role=\"tablist\" aria-label=\"Folders\">
        "

/-- Literal text of the `html_doc` template. -/
def docPart2 : String :=
  "
      </nav>
    </div>
  </header>

  <main>
    "

/-- Literal text of the `html_doc` template. -/
def docPart3 : String :=
  "
  </main>

  <div id=\"viewer\" class=\"viewer\" aria-hidden=\"true\">
    <div class=\"inner\">
      <button class=\"close\" aria-label=\"Close\">✕</button>
      <div class=\"frame\"></div>
      <div class=\"meta\"></div>
    </div>
  </div>

  <footer>
    生成物: <code>index.html</code> ・ メディアは <code>media/</code> 配下の各フォルダへ入れるだけ
  </footer>

<script>
(function()\x7b
  const $ = (sel, root=document) => root.querySelector(sel);
  const $$ = (sel, root=document) => Array.from(root.querySelectorAll(sel));

  // タブ切り替え
  const tabs = $$('.tab-btn');
  const panels = $$('.panel');
  const KEY = 'gallery:lastTab';

  function activate(slug) \x7b
    tabs.forEach(btn => btn.classList.toggle('active', btn.dataset.target === slug));
    panels.forEach(p => p.classList.toggle('active', p.id === slug));
    localStorage.setItem(KEY, slug);
  \x7d

  tabs.forEach(btn => btn.addEventListener('click', () => activate(btn.dataset.target)));

  // 初期アクティブ（ローカルストレージ優先）
  const initial = localStorage.getItem(KEY) || '"

/-- Literal text of the `html_doc` template. -/
def docPart4 : String :=
  "';
  if (initial) activate(initial);

  // ビューア（モーダル）
  const viewer = $('#viewer');
  const frame = $('.frame', viewer);
  const meta = $('.meta', viewer);
  const closeBtn = $('.close', viewer);

  function openViewer(kind, src, name) \x7b
    frame.innerHTML = '';
    meta.textContent = name || '';
    if (kind === 'image') \x7b
      const img = new Image();
      img.src = src; img.alt = name || '';
      img.loading = 'eager';
      frame.appendChild(img);
    \x7d else if (kind === 'video') \x7b
      const v = document.createElement('video');
      v.src = src; v.controls = true; v.autoplay = true; v.playsInline = true;
      frame.appendChild(v);
    \x7d
    viewer.classList.add('active');
    viewer.setAttribute('aria-hidden', 'false');
  \x7d

  function closeViewer() \x7b
    viewer.classList.remove('active');
    viewer.setAttribute('aria-hidden', 'true');
    frame.innerHTML = '';
  \x7d

  closeBtn.addEventListener('click', closeViewer);
  viewer.addEventListener('click', (e) => \x7b if (e.target === viewer) closeViewer(); \x7d);
  document.addEventListener('keydown', (e) => \x7b if (e.key === 'Escape') closeViewer(); \x7d);

  // タイルクリックで開く
  $$('.grid .tile').forEach(tile => \x7b
    tile.addEventListener('click', () => \x7b
      const kind = tile.dataset.kind;
      const src  = tile.dataset.src;
      const name = tile.getAttribute('aria-label') || '';
      openViewer(kind, src, name);
    \x7d);
  \x7d);
\x7d)();

</script>
</body>
</html>
"

/-- The tab button the loop appends for one tab. -/
def tabButtonHtml (tab : Tab) : String :=
  let nm := escape tab.name
  let slug := escape tab.slug
  let count := tab.items.length
  "<button class=\"tab-btn\" role=\"tab\" data-target=\"" ++ slug ++ "\">" ++
    "<span class=\"tab-name\">" ++ nm ++ "</span>" ++
    "<span class=\"tab-count\">" ++ toString count ++ "</span>" ++
    "</button>"

/-- The (stripped) image-tile template, with `url` and `fname` interpolated. -/
def imageTileHtml (url fname : String) : String :=
  "<li class=\"tile\" data-kind=\"image\" data-src=\"" ++ url ++ "\" aria-label=\"" ++
    fname ++ "\">\n  <img src=\"" ++ url ++ "\" alt=\"" ++ fname ++
    "\" loading=\"lazy\" />\n</li>"

/-- The (stripped) video-tile template, with `url`, `fname`, `short`
interpolated. -/
def videoTileHtml (url fname short : String) : String :=
  "<li class=\"tile video\" data-kind=\"video\" data-src=\"" ++ url ++
    "\" aria-label=\"" ++ fname ++ "\">\n  <div class=\"video-thumb\" title=\"" ++
    fname ++ "\">\n    <div class=\"play-icon\" aria-hidden=\"true\"></div>\n    " ++
    "<div class=\"filename\">" ++ short ++ "</div>\n  </div>\n</li>"

/-- One iteration of the tile loop: an image tile, a video tile (with the
shortened, escaped caption), or nothing for any other kind. -/
def tileHtml (item : Item) : Option String :=
  let url := escape item.url
  let fname := escape item.name
  if item.kind == "image" then some (imageTileHtml url fname)
  else if item.kind == "video" then
    some (videoTileHtml url fname (escape (shorten_name item.name)))
  else none

/-- The panel the loop appends for one tab. -/
def tabPanelHtml (tab : Tab) : String :=
  let slug := escape tab.slug
  let tiles := tab.items.filterMap tileHtml
  "<section id=\"" ++ slug ++ "\" class=\"panel\" role=\"tabpanel\" aria-labelledby=\"tab-" ++
    slug ++ "\">\n" ++ "  <ul class=\"grid\">\n    " ++
    String.intercalate "\n    " tiles ++ "\n  </ul>\n" ++ "</section>"

/-- `tabs[0]["slug"] if tabs else ""` (line 107 of the source). -/
def default_active (tabs : List Tab) : String :=
  match tabs with
  | [] => ""
  | t :: _ => t.slug

/-- `render_index_html(tabs)`: the document template with the joined tab
buttons, the joined panels and the initially-active slug interpolated.
Note that `default_active` is interpolated raw, not through `escape`. -/
def render_index_html (tabs : List Tab) : String :=
  let tab_buttons_html := tabs.map tabButtonHtml
  let tab_panels_html := tabs.map tabPanelHtml
  docPart1 ++ String.join tab_buttons_html ++ docPart2 ++
    String.join tab_panels_html ++ docPart3 ++ default_active tabs ++ docPart4

/-- `main()`: build the data, render it, then write the document over
`OUTPUT_HTML`. The output location is threaded explicitly: on an error the
previous contents survive, on success they are overwritten. -/
def mainRun (media : Option FSNode) (prevOutput : Option String) :
    Option String × Option FSError :=
  match build_gallery_data media with
  | .error e => (prevOutput, some e)
  | .ok tabs => (some (render_index_html tabs), none)

/-- `pat` occurs as a contiguous substring of `s`. -/
def containsSub (pat s : String) : Prop :=
  pat.toList <:+: s.toList

/-- A media-root child that the builder turns into a tab: a directory whose
direct children include at least one qualifying media file. -/
def isQualifyingDir : FSNode → Bool
  | .file _ => false
  | .dir _ cs => cs.any is_media_file

/-- The §4.4 contract of `shortenName`, stated from the specification's own
words (split into stem and extension, truncate a long extension to 6
characters plus an ellipsis, integer stem budget `maxLen - len(ext) - 1`
floored at 3), for comparison with the source's `shorten_name`. -/
def shortenNameSpec (name : String) (maxLen : Nat) : String :=
  if name.length ≤ maxLen then name
  else
    let stem := pyStem name
    let ext0 := pySuffix name
    let ext := if 6 < ext0.length then strTake ext0 6 ++ "…" else ext0
    let budget : Int := (maxLen : Int) - (ext.length : Int) - 1
    let budget := max budget 3
    strTake stem budget.toNat ++ "…" ++ ext

/-- "Sorted case-insensitively by subdirectory name" as a relation on tabs. -/
def tabKeyLe (a b : Tab) : Prop := strLeb (pyLower a.name) (pyLower b.name) = true

/-- "Sorted case-insensitively by file name" as a relation on items. -/
def itemKeyLe (a b : Item) : Prop := strLeb (pyLower a.name) (pyLower b.name) = true

/-! ### Helper lemmas -/

theorem toList_append (s t : String) : (s ++ t).toList = s.toList ++ t.toList :=
  String.data_append s t

theorem length_append (s t : String) : (s ++ t).length = s.length + t.length := by
  show (s ++ t).data.length = s.data.length + t.data.length
  rw [String.data_append, List.length_append]

theorem length_strTake (s : String) (n : Nat) :
    (strTake s n).length = min n s.length := by
  show (s.toList.take n).length = min n s.length
  exact List.length_take n s.toList

theorem charListLeb_total : ∀ as bs, charListLeb as bs = true ∨ charListLeb bs as = true
  | [], _ => Or.inl rfl
  | _ :: _, [] => Or.inr rfl
  | a :: as, b :: bs => by
    simp only [charListLeb]
    rcases Nat.lt_trichotomy a.toNat b.toNat with h | h | h
    · left
      rw [if_pos h]
    · rw [if_neg (by omega), if_neg (by omega), if_neg (by omega), if_neg (by omega)]
      exact charListLeb_total as bs
    · right
      rw [if_pos h]

theorem charListLeb_trans :
    ∀ as bs cs, charListLeb as bs = true → charListLeb bs cs = true →
      charListLeb as cs = true
  | [], _, _, _, _ => rfl
  | _ :: _, [], _, h1, _ => by simp [charListLeb] at h1
  | _ :: _, _ :: _, [], _, h2 => by simp [charListLeb] at h2
  | a :: as, b :: bs, c :: cs, h1, h2 => by
    simp only [charListLeb] at h1 h2 ⊢
    rcases Nat.lt_trichotomy a.toNat b.toNat with hab | hab | hab
    · rw [if_pos hab] at h1
      rcases Nat.lt_trichotomy b.toNat c.toNat with hbc | hbc | hbc
      · rw [if_pos (show a.toNat < c.toNat by omega)]
      · rw [if_pos (show a.toNat < c.toNat by omega)]
      · rw [if_neg (by omega), if_pos hbc] at h2
        exact absurd h2 Bool.false_ne_true
    · rcases Nat.lt_trichotomy b.toNat c.toNat with hbc | hbc | hbc
      · rw [if_pos (show a.toNat < c.toNat by omega)]
      · rw [if_neg (by omega), if_neg (by omega)] at h1 h2 ⊢
        exact charListLeb_trans as bs cs h1 h2
      · rw [if_neg (by omega), if_pos hbc] at h2
        exact absurd h2 Bool.false_ne_true
    · rw [if_neg (by omega), if_pos hab] at h1
      exact absurd h1 Bool.false_ne_true

instance : IsTotal FSNode nodeLe :=
  ⟨fun a b => charListLeb_total (pyLower a.name).toList (pyLower b.name).toList⟩

instance : IsTrans FSNode nodeLe :=
  ⟨fun a b c => charListLeb_trans (pyLower a.name).toList (pyLower b.name).toList
    (pyLower c.name).toList⟩

theorem keep_nat_eq_int_budget (m e : Nat) :
    (if m - e - 1 < 3 then 3 else m - e - 1) = (max ((m : Int) - e - 1) 3).toNat := by
  rcases le_or_lt ((m : Int) - e - 1) 3 with h | h
  · rw [max_eq_right h]
    have : m - e - 1 < 3 ∨ m - e - 1 = 3 := by omega
    rcases this with h' | h'
    · rw [if_pos h']
      rfl
    · rw [if_neg (by omega), h']
      rfl
  · rw [max_eq_left (le_of_lt h), if_neg (by omega)]
    omega

theorem shorten_eq_spec (name : String) (max_len : Nat) :
    shorten_name name max_len = shortenNameSpec name max_len := by
  simp only [shorten_name, shortenNameSpec]
  by_cases h : name.length ≤ max_len
  · rw [if_pos h, if_pos h]
  · rw [if_neg h, if_neg h, keep_nat_eq_int_budget]

theorem shorten_name_long (name : String) (max_len : Nat)
    (h : ¬ name.length ≤ max_len) :
    shorten_name name max_len =
      strTake (pyStem name)
        (if max_len - (truncExt name).length - 1 < 3 then 3
          else max_len - (truncExt name).length - 1) ++ "…" ++ truncExt name := by
  simp only [shorten_name, truncExt, if_neg h]

/-! ### The claims -/

/-- C3: `shorten_name` returns `name` unchanged when it fits in `max_len`
and otherwise follows the stem/extension truncation contract of §4.4 of the
spec (stated verbatim as `shortenNameSpec`); the long example shortens to at
most 22 characters, ending in its extension and starting with a prefix of
its stem, and `"short.png"` is returned unchanged. -/
theorem claim_C3 :
    (∀ name max_len, shorten_name name max_len = shortenNameSpec name max_len)
    ∧ (shorten_name "a_very_long_filename_example.jpeg" 22).length ≤ 22
    ∧ (pySuffix "a_very_long_filename_example.jpeg").toList <:+
        (shorten_name "a_very_long_filename_example.jpeg" 22).toList
    ∧ (∃ k, (strTake (pyStem "a_very_long_filename_example.jpeg") k).toList <+:
        (shorten_name "a_very_long_filename_example.jpeg" 22).toList)
    ∧ shorten_name "short.png" 22 = "short.png" :=
  ⟨shorten_eq_spec, by decide, ⟨"a_very_long_file…".toList, by decide⟩,
    ⟨16, "….jpeg".toList, by decide⟩, by decide⟩

/-- C9, counterexample: at `name = "a.verylongext"`, `max_len = 9` the name
is too long and the stem budget falls below the floor of 3, yet the result's
length is not `3 + 1 + len(extension-after-truncation)` (the stem has fewer
than 3 characters) and does not exceed `max_len`. -/
theorem claim_C9_counterexample :
    9 < ("a.verylongext" : String).length
    ∧ 9 - (truncExt "a.verylongext").length - 1 < 3
    ∧ ¬((shorten_name "a.verylongext" 9).length
        = 3 + 1 + (truncExt "a.verylongext").length)
    ∧ ¬(9 < (shorten_name "a.verylongext" 9).length) :=
  ⟨by decide, by decide, by decide, by decide⟩

/-- C9, amended: whenever `len(name) > max_len`, the stem budget
`max_len - len(extension-after-truncation) - 1` falls below the floor of 3,
and the stem has at least 3 characters, the result's length is
`3 + 1 + len(extension-after-truncation)`, which exceeds `max_len`. -/
theorem claim_C9_amended (name : String) (max_len : Nat)
    (h1 : max_len < name.length)
    (h2 : max_len - (truncExt name).length - 1 < 3)
    (h3 : 3 ≤ (pyStem name).length) :
    (shorten_name name max_len).length = 3 + 1 + (truncExt name).length
    ∧ max_len < (shorten_name name max_len).length := by
  rw [shorten_name_long name max_len (by omega), if_pos h2, length_append,
    length_append, length_strTake, show ("…" : String).length = 1 from rfl,
    Nat.min_eq_left h3]
  exact ⟨rfl, by omega⟩

/-- C9, witness: the amended statement at the claim's own example,
`shorten_name("abcdefgh.verylongext", 10)`, whose length is 11 > 10. -/
theorem claim_C9_witness :
    (shorten_name "abcdefgh.verylongext" 10).length
      = 3 + 1 + (truncExt "abcdefgh.verylongext").length
    ∧ 10 < (shorten_name "abcdefgh.verylongext" 10).length :=
  claim_C9_amended "abcdefgh.verylongext" 10 (by decide) (by decide) (by decide)

/-- C2, counterexample: a media root that exists as a regular file does not
exist as a directory, yet `build_gallery_data` does not fail with the
missing-media-root (`FileNotFoundError`) error there: the existence check
passes and `iterdir()` raises `NotADirectoryError` instead. -/
theorem claim_C2_counterexample :
    (FSNode.file "media").isDir = false
    ∧ build_gallery_data (some (.file "media")) = .error .notADirectory
    ∧ build_gallery_data (some (.file "media")) ≠ .error .fileNotFound :=
  ⟨rfl, rfl, fun h => FSError.noConfusion (Except.error.inj h)⟩

/-- C2, amended: `build_gallery_data` fails with the missing-media-root
error if and only if the media root does not exist at all; a root that
exists as a directory yields a normal return with the tab list, and a root
that exists as a non-directory fails with a not-a-directory error instead. -/
theorem claim_C2_amended (m : Option FSNode) :
    (build_gallery_data m = .error .fileNotFound ↔ m = none)
    ∧ (∀ nm children, ∃ tabs,
        build_gallery_data (some (.dir nm children)) = .ok tabs)
    ∧ (∀ nm, build_gallery_data (some (.file nm)) = .error .notADirectory) := by
  refine ⟨?_, fun nm children => ⟨_, rfl⟩, fun nm => rfl⟩
  cases m with
  | none => simp [build_gallery_data]
  | some node => cases node <;> simp [build_gallery_data]

/-- C2, witness: the amended theorem applied at a concrete file root. -/
theorem claim_C2_witness :
    build_gallery_data (some (FSNode.file "m")) = .error .notADirectory :=
  (claim_C2_amended (some (FSNode.file "m"))).2.2 "m"

/-- C7: with a missing media root the pipeline of `main` raises the
missing-media-root error in the data-building step, before any write, and
the previous contents of the output location are left untouched. -/
theorem claim_C7 (prevOutput : Option String) :
    build_gallery_data none = .error .fileNotFound
    ∧ mainRun none prevOutput = (prevOutput, some .fileNotFound) :=
  ⟨rfl, rfl⟩

/-- C10: a file named `".jpg"` has an empty suffix under `pathlib`'s
extraction, so `is_media_file`, `is_image` and `is_video` are all false for
it and a gallery folder holding only that file contributes no tab. -/
theorem claim_C10 :
    pySuffix ".jpg" = ""
    ∧ is_media_file (.file ".jpg") = false
    ∧ is_image ".jpg" = false
    ∧ is_video ".jpg" = false
    ∧ build_gallery_data (some (.dir "media" [.dir "a" [.file ".jpg"]])) = .ok [] :=
  ⟨rfl, rfl, rfl, rfl, rfl⟩

theorem tabOfSub_name {m : String} {sub : FSNode} {tab : Tab}
    (h : tabOfSub m sub = some tab) : tab.name = sub.name := by
  cases sub with
  | file n => simp [tabOfSub] at h
  | dir n cs =>
    simp only [tabOfSub] at h
    by_cases hemp : ((pySortByLowerName cs).filter is_media_file).isEmpty = true
    · rw [if_pos hemp] at h
      exact absurd h (by simp)
    · rw [if_neg hemp] at h
      cases Option.some.inj h
      rfl

theorem tabOfSub_items {m n : String} {cs : List FSNode} {tab : Tab}
    (h : tabOfSub m (.dir n cs) = some tab) :
    tab.items = ((pySortByLowerName cs).filter is_media_file).map (itemOfFile m n)
    ∧ ((pySortByLowerName cs).filter is_media_file).isEmpty = false := by
  simp only [tabOfSub] at h
  by_cases hemp : ((pySortByLowerName cs).filter is_media_file).isEmpty = true
  · rw [if_pos hemp] at h
    exact absurd h (by simp)
  · rw [if_neg hemp] at h
    cases Option.some.inj h
    exact ⟨rfl, by simpa using hemp⟩

theorem tabOfSub_isSome (m : String) (sub : FSNode) :
    (tabOfSub m sub).isSome = isQualifyingDir sub := by
  cases sub with
  | file n => rfl
  | dir n cs =>
    simp only [tabOfSub, isQualifyingDir]
    have hperm : List.Perm ((pySortByLowerName cs).filter is_media_file)
        (cs.filter is_media_file) :=
      (List.perm_insertionSort nodeLe cs).filter is_media_file
    by_cases hemp : ((pySortByLowerName cs).filter is_media_file).isEmpty = true
    · rw [if_pos hemp]
      have hnil : (pySortByLowerName cs).filter is_media_file = [] :=
        List.isEmpty_iff.mp hemp
      rw [hnil] at hperm
      have hfil : cs.filter is_media_file = [] := hperm.symm.eq_nil
      have hall := List.filter_eq_nil_iff.mp hfil
      symm
      rw [Option.isSome_none, List.any_eq_false]
      exact hall
    · rw [if_neg hemp]
      have hne : (pySortByLowerName cs).filter is_media_file ≠ [] := by
        intro hnil
        exact hemp (by simp [hnil])
      obtain ⟨a, ha⟩ := List.exists_mem_of_ne_nil _ hne
      have ha' : a ∈ cs.filter is_media_file := hperm.mem_iff.mp ha
      have hmem := List.mem_filter.mp ha'
      symm
      rw [Option.isSome_some, List.any_eq_true]
      exact ⟨a, hmem.1, hmem.2⟩

theorem length_filterMap_eq_filter {α β : Type} (f : α → Option β) (p : α → Bool)
    (hf : ∀ a, (f a).isSome = p a) :
    ∀ l : List α, (l.filterMap f).length = (l.filter p).length
  | [] => rfl
  | a :: t => by
    cases hfa : f a with
    | none =>
      have hpa : ¬ p a = true := by
        rw [← hf a, hfa]
        simp
      rw [List.filterMap_cons_none hfa, List.filter_cons_of_neg hpa,
        length_filterMap_eq_filter f p hf t]
    | some b =>
      have hpa : p a = true := by
        rw [← hf a, hfa]
        rfl
      rw [List.filterMap_cons_some hfa, List.filter_cons_of_pos hpa]
      simp only [List.length_cons, length_filterMap_eq_filter f p hf t]

/-- C4: for every media root the tab list `build_gallery_data` returns is
sorted case-insensitively by subdirectory name, and within every tab the
items are sorted case-insensitively by file name. -/
theorem claim_C4 (mediaName : String) (children : List FSNode) (tabs : List Tab)
    (h : build_gallery_data (some (.dir mediaName children)) = .ok tabs) :
    tabs.Pairwise tabKeyLe ∧ ∀ t ∈ tabs, t.items.Pairwise itemKeyLe := by
  have htabs : tabs = (pySortByLowerName children).filterMap (tabOfSub mediaName) :=
    (Except.ok.inj h).symm
  subst htabs
  constructor
  · refine List.Pairwise.filterMap (tabOfSub mediaName) ?_
      (List.sorted_insertionSort nodeLe children)
    intro a a' hr b hb b' hb'
    have hbn : b.name = a.name := tabOfSub_name (Option.mem_def.mp hb)
    have hb'n : b'.name = a'.name := tabOfSub_name (Option.mem_def.mp hb')
    show strLeb (pyLower b.name) (pyLower b'.name) = true
    rw [hbn, hb'n]
    exact hr
  · intro t ht
    obtain ⟨sub, hsub, hf⟩ := List.mem_filterMap.mp ht
    cases sub with
    | file n => simp [tabOfSub] at hf
    | dir n cs =>
      obtain ⟨hitems, -⟩ := tabOfSub_items hf
      rw [hitems, List.pairwise_map]
      have hsorted : ((pySortByLowerName cs).filter is_media_file).Pairwise nodeLe :=
        (List.sorted_insertionSort nodeLe cs).filter is_media_file
      exact hsorted.imp (fun hab => hab)

/-- C4, witness: the sortedness theorem at a concrete media root with two
folders listed out of (case-insensitive) order. -/
theorem claim_C4_witness :
    ([⟨"A", "A", [⟨"media/A/q.png", "q.png", "image"⟩]⟩,
      ⟨"b", "b", [⟨"media/b/z.jpg", "z.jpg", "image"⟩]⟩] : List Tab).Pairwise tabKeyLe
    ∧ ∀ t ∈ ([⟨"A", "A", [⟨"media/A/q.png", "q.png", "image"⟩]⟩,
        ⟨"b", "b", [⟨"media/b/z.jpg", "z.jpg", "image"⟩]⟩] : List Tab),
        t.items.Pairwise itemKeyLe :=
  claim_C4 "media" [.dir "b" [.file "z.jpg"], .dir "A" [.file "q.png"]] _ rfl

/-- C5: every tab in the builder's result has non-empty items, and the tabs
are in bijection with the media-root children that are directories holding
at least one qualifying media file (so non-directories and media-less
directories contribute nothing). -/
theorem claim_C5 (mediaName : String) (children : List FSNode) (tabs : List Tab)
    (h : build_gallery_data (some (.dir mediaName children)) = .ok tabs) :
    (∀ t ∈ tabs, t.items ≠ [])
    ∧ tabs.length = (children.filter isQualifyingDir).length := by
  have htabs : tabs = (pySortByLowerName children).filterMap (tabOfSub mediaName) :=
    (Except.ok.inj h).symm
  subst htabs
  constructor
  · intro t ht
    obtain ⟨sub, hsub, hf⟩ := List.mem_filterMap.mp ht
    cases sub with
    | file n => simp [tabOfSub] at hf
    | dir n cs =>
      obtain ⟨hitems, hne⟩ := tabOfSub_items hf
      rw [hitems]
      intro hmapnil
      rw [List.map_eq_nil_iff] at hmapnil
      rw [hmapnil] at hne
      simp at hne
  · have hperm : List.Perm
        ((pySortByLowerName children).filterMap (tabOfSub mediaName))
        (children.filterMap (tabOfSub mediaName)) :=
      (List.perm_insertionSort nodeLe children).filterMap (tabOfSub mediaName)
    rw [hperm.length_eq,
      length_filterMap_eq_filter (tabOfSub mediaName) isQualifyingDir
        (tabOfSub_isSome mediaName) children]

/-- C5, witness: the invariant at a concrete media root holding a stray
file, a directory with no qualifying media, and one qualifying directory. -/
theorem claim_C5_witness :
    (∀ t ∈ ([⟨"A", "A", [⟨"media/A/q.png", "q.png", "image"⟩]⟩,
        ⟨"b", "b", [⟨"media/b/z.jpg", "z.jpg", "image"⟩]⟩] : List Tab), t.items ≠ [])
    ∧ ([⟨"A", "A", [⟨"media/A/q.png", "q.png", "image"⟩]⟩,
        ⟨"b", "b", [⟨"media/b/z.jpg", "z.jpg", "image"⟩]⟩] : List Tab).length
      = ([FSNode.dir "b" [.file "z.jpg"], .dir "A" [.file "q.png"],
          .file "stray.jpg", .dir "empty" [.file "notes.txt"]].filter
            isQualifyingDir).length :=
  claim_C5 "media"
    [.dir "b" [.file "z.jpg"], .dir "A" [.file "q.png"],
      .file "stray.jpg", .dir "empty" [.file "notes.txt"]] _ rfl

theorem mem_image_not_video {k : String} (h : k ∈ IMAGE_EXTS) :
    VIDEO_EXTS.contains k = false := by
  fin_cases h <;> rfl

theorem mem_video_not_image {k : String} (h : k ∈ VIDEO_EXTS) :
    IMAGE_EXTS.contains k = false := by
  fin_cases h <;> rfl

/-- C6: a path whose lower-cased, dot-stripped extension is in the image set
is classified as an image and not a video; one whose key is in the video set
is classified as a video and not an image; and one in neither set is
classified as neither. -/
theorem claim_C6 (p : String) :
    (extKey p ∈ IMAGE_EXTS → is_image p = true ∧ is_video p = false)
    ∧ (extKey p ∈ VIDEO_EXTS → is_video p = true ∧ is_image p = false)
    ∧ (extKey p ∉ IMAGE_EXTS → extKey p ∉ VIDEO_EXTS →
        is_image p = false ∧ is_video p = false) := by
  refine ⟨fun h => ⟨?_, ?_⟩, fun h => ⟨?_, ?_⟩, fun h1 h2 => ⟨?_, ?_⟩⟩
  · exact List.elem_eq_true_of_mem h
  · exact mem_image_not_video h
  · exact List.elem_eq_true_of_mem h
  · exact mem_video_not_image h
  · show IMAGE_EXTS.elem (extKey p) = false
    rw [Bool.eq_false_iff]
    intro hel
    exact h1 (List.mem_of_elem_eq_true hel)
  · show VIDEO_EXTS.elem (extKey p) = false
    rw [Bool.eq_false_iff]
    intro hel
    exact h2 (List.mem_of_elem_eq_true hel)

/-- C6, witness: the classifier facts at the mixed-case image name `x.JPG`
and the video name `clip.mp4`. -/
theorem claim_C6_witness :
    (is_image "x.JPG" = true ∧ is_video "x.JPG" = false)
    ∧ (is_video "clip.mp4" = true ∧ is_image "clip.mp4" = false) :=
  ⟨(claim_C6 "x.JPG").1 (by decide), (claim_C6 "clip.mp4").2.1 (by decide)⟩

/-- C8: rendering succeeds on the empty tab list; the initially-active slug
is the first tab's slug, or empty when there are no tabs; and with zero tabs
the document is exactly the fixed chrome with empty button and panel slots
and an empty initial slug — no tab buttons and no panels are emitted. -/
theorem claim_C8 :
    default_active ([] : List Tab) = ""
    ∧ (∀ (t : Tab) (ts : List Tab), default_active (t :: ts) = t.slug)
    ∧ ([] : List Tab).map tabButtonHtml = []
    ∧ ([] : List Tab).map tabPanelHtml = []
    ∧ render_index_html [] = docPart1 ++ docPart2 ++ docPart3 ++ docPart4 := by
  refine ⟨rfl, fun t ts => rfl, rfl, rfl, ?_⟩
  have hren : render_index_html [] =
      docPart1 ++ "" ++ docPart2 ++ "" ++ docPart3 ++ "" ++ docPart4 := rfl
  rw [hren]
  simp only [String.append_empty]

/-- C1: a tab whose slug contains `<`, `&` and `"` reaches the inline script
unescaped: `build_gallery_data` passes the folder name through as the slug,
and `render_index_html` interpolates the initially-active slug into the
script without `escape`, so the raw character sequence occurs in the output
document (whereas `escape` would have rewritten every such character). -/
theorem claim_C1 :
    build_gallery_data (some (.dir "media" [.dir "x<&\"y" [.file "a.jpg"]]))
      = .ok [⟨"x<&\"y", "x<&\"y", [⟨"media/x<&\"y/a.jpg", "a.jpg", "image"⟩]⟩]
    ∧ containsSub "x<&\"y"
        (render_index_html
          [⟨"x<&\"y", "x<&\"y", [⟨"media/x<&\"y/a.jpg", "a.jpg", "image"⟩]⟩])
    ∧ escape "x<&\"y" = "x&lt;&amp;&quot;y" := by
  refine ⟨rfl, ?_, rfl⟩
  show ("x<&\"y" : String).toList <:+: _
  refine ⟨(docPart1
      ++ String.join [tabButtonHtml
          ⟨"x<&\"y", "x<&\"y", [⟨"media/x<&\"y/a.jpg", "a.jpg", "image"⟩]⟩]
      ++ docPart2
      ++ String.join [tabPanelHtml
          ⟨"x<&\"y", "x<&\"y", [⟨"media/x<&\"y/a.jpg", "a.jpg", "image"⟩]⟩]
      ++ docPart3).toList, docPart4.toList, ?_⟩
  simp only [render_index_html, List.map_cons, List.map_nil, default_active]
  simp only [toList_append, List.append_assoc]

end Gallery
